import Mathlib

/-
Shallow embedding of `slack_gateway_agent.py`: an AgentCore Runtime entrypoint
that validates configuration and payload, acquires an OAuth access token,
discovers gateway tools through a paginated listing, and relays the agent
runtime's streamed events to the caller, classifying failures into error
events.  External collaborators (credential provider, MCP gateway client,
agent runtime) are modelled as explicit stub parameters, and the observable
side effects (token acquisitions, page requests, runtime construction, stream
invocations) are recorded in a trace.
-/

set_option autoImplicit false
set_option maxHeartbeats 1000000

namespace SlackGatewayAgent

/-- Value stored under a key of the inbound payload dictionary: Python `None`
or a string. -/
inductive PyVal where
  | none
  | str (s : String)
deriving DecidableEq

/-- One streamed Event: an error record, a data record, or any other
intermediate record produced by the agent runtime (forwarded verbatim). -/
inductive Event where
  | error (msg : String)
  | data (payload : String)
  | other (payload : String)
deriving DecidableEq

/-- Whether an Event is an error record (has the key "error"). -/
def Event.isError : Event → Bool
  | Event.error _ => true
  | _ => false

/-- Whether the first character list occurs at the start of the second. -/
def startsWithSeq : List Char → List Char → Bool
  | [], _ => true
  | _ :: _, [] => false
  | a :: as, b :: bs => a == b && startsWithSeq as bs

/-- Whether the first character list occurs contiguously inside the second
(the Python `in` operator on strings). -/
def containsSeq (needle : List Char) : List Char → Bool
  | [] => startsWithSeq needle []
  | b :: t => startsWithSeq needle (b :: t) || containsSeq needle t

/-- Substring containment on strings, matching Python `needle in hay`. -/
def containsSub (needle hay : String) : Bool :=
  containsSeq needle.data hay.data

/-- Lower-case a string character-wise (Python `str.lower` on ASCII). -/
def lowerStr (s : String) : String :=
  String.mk (List.map Char.toLower s.data)

/-- Error classification performed by the `except` block of
`access_to_slack` (source lines 283-293): the lowercased exception text is
matched for "read timeout", then "none", and the corresponding error event
is emitted; otherwise a generic execution-failure event carrying the
original message. -/
def classifyError (e : String) : Event :=
  let error_msg := lowerStr e
  if containsSub "read timeout" error_msg then
    if containsSub "none" error_msg then
      Event.error ("Gateway URL設定エラー: " ++ e)
    else
      Event.error ("Gateway応答タイムアウト: " ++ e)
  else
    Event.error ("エージェントの実行に失敗しました: " ++ e)

/-- One page returned by `client.list_tools_sync`: the tool descriptors of
the page plus an optional continuation cursor. -/
structure ToolPage where
  items : List String
  pagination_token : Option String
deriving DecidableEq

/-- The pagination loop of `get_full_tools_list` (source lines 137-163):
starting from no cursor, request a page, append its items, and continue with
the page's continuation cursor until a page reports none.  The gateway stub
is a function from the cursor passed to the page returned.  The loop is
fuelled (the Python `while` diverges on a gateway that always returns a
cursor); on successful termination it returns the accumulated tools together
with the list of cursors passed to the successive page requests. -/
def get_full_tools_list (client : Option String → ToolPage) :
    Nat → Option String → Option (List String × List (Option String))
  | 0, _ => Option.none
  | fuel + 1, cursor =>
      let tmp_tools := client cursor
      match tmp_tools.pagination_token with
      | Option.none => Option.some (tmp_tools.items, [cursor])
      | Option.some t =>
          match get_full_tools_list client fuel (Option.some t) with
          | Option.none => Option.none
          | Option.some (ts, reqs) =>
              Option.some (tmp_tools.items ++ ts, cursor :: reqs)

/-- `chainFrom client c ps` states that, starting from cursor `c`, the
gateway serves exactly the pages `ps`: each page but the last carries a
continuation cursor under which the gateway serves the next page, and the
last page carries no cursor. -/
def chainFrom (client : Option String → ToolPage) :
    Option String → List ToolPage → Prop
  | _, [] => False
  | c, [p] => client c = p ∧ p.pagination_token = Option.none
  | c, p :: q :: rest =>
      client c = p ∧
        ∃ t, p.pagination_token = Option.some t ∧
          chainFrom client (Option.some t) (q :: rest)

/-- The cursors a faithful paginator passes through a page chain: the
starting cursor, then each page's continuation cursor in turn. -/
def chainCursors : Option String → List ToolPage → List (Option String)
  | _, [] => []
  | c, p :: rest =>
      c :: (match p.pagination_token with
            | Option.none => []
            | Option.some t => chainCursors (Option.some t) rest)

/-- The four environment values read by `AgentWithIdentity.__init__`
(source lines 32-36); a missing variable is `Option.none`. -/
structure Env where
  GATEWAY_URL : Option String
  COGNITO_SCOPE : Option String
  WORKLOAD_NAME : Option String
  USER_ID : Option String

/-- Python truthiness test `not value` applied to the result of
`os.environ.get`: true when the variable is absent or empty. -/
def optFalsy : Option String → Bool
  | Option.none => true
  | Option.some s => s == ""

/-- Configuration fields held by a successfully constructed
`AgentWithIdentity` instance. -/
structure AgentConfig where
  gateway_url : String
  cognito_scope : String
  workload_name : String
  user_id : String
deriving DecidableEq

/-- `AgentWithIdentity.__init__` (source lines 32-43): read the four
environment values, apply the documented defaults to the optional two, and
raise `ValueError` when the gateway URL or the Cognito scope is falsy. -/
def AgentWithIdentity.init (env : Env) : Except String AgentConfig :=
  if optFalsy env.GATEWAY_URL then
    Except.error "GATEWAY_URL環境変数が必要です"
  else if optFalsy env.COGNITO_SCOPE then
    Except.error "COGNITO_SCOPE環境変数が必要です"
  else
    Except.ok
      { gateway_url := env.GATEWAY_URL.getD ""
        cognito_scope := env.COGNITO_SCOPE.getD ""
        workload_name := env.WORKLOAD_NAME.getD "slack-gateway-agent"
        user_id := env.USER_ID.getD "m2m-user-001" }

/-- The inbound payload dictionary, as an association list. -/
def Payload : Type := List (String × PyVal)

/-- Python key membership `k in payload`. -/
def payloadHasKey (p : Payload) (k : String) : Bool :=
  (List.any p (fun kv => kv.1 == k))

/-- Python emptiness test `not payload`. -/
def payloadIsEmpty (p : Payload) : Bool :=
  (List.isEmpty p)

/-- Python `payload.get(k, d)`: the stored value (possibly `None`) when the
key is present, the default otherwise. -/
def payloadGetD (p : Payload) (k : String) (d : PyVal) : PyVal :=
  match List.find? (fun kv => kv.1 == k) p with
  | Option.none => d
  | Option.some kv => kv.2

/-- Stubbed external collaborators of one invocation: the credential
provider's outcome, the gateway client with a termination bound for its page
chain, and the agent runtime's stream (the events it yields, and an optional
exception it raises after yielding them). -/
structure Externals where
  tokenResult : Except String String
  client : Option String → ToolPage
  clientFuel : Nat
  runtimeEvents : List Event
  runtimeExc : Option String

/-- Observable side effects of one invocation: credential-provider calls,
gateway page requests, completed tool-list retrievals, whether the Strands
Agent was constructed, and the user messages passed to `stream_async`. -/
structure Trace where
  tokenCalls : Nat
  pageRequests : Nat
  toolListCalls : Nat
  runtimeConstructed : Bool
  streamMessages : List PyVal
deriving DecidableEq

/-- The trace of an invocation that made no external call. -/
def emptyTrace : Trace :=
  { tokenCalls := 0, pageRequests := 0, toolListCalls := 0,
    runtimeConstructed := false, streamMessages := [] }

/-- Trace of an invocation that acquired a token and then saw the exception
escape the generator: one credential-provider call, nothing afterwards. -/
def raisedTrace : Trace :=
  { tokenCalls := 1, pageRequests := 0, toolListCalls := 0,
    runtimeConstructed := false, streamMessages := [] }

/-- Trace of an invocation that acquired a token and listed tools over `n`
page requests but never constructed the agent runtime. -/
def discoveryTrace (n : Nat) : Trace :=
  { tokenCalls := 1, pageRequests := n, toolListCalls := 1,
    runtimeConstructed := false, streamMessages := [] }

/-- Trace of an invocation that acquired a token, listed tools over `n`
page requests, constructed the agent runtime and invoked its stream with the
user message `v`. -/
def streamTrace (n : Nat) (v : PyVal) : Trace :=
  { tokenCalls := 1, pageRequests := n, toolListCalls := 1,
    runtimeConstructed := true, streamMessages := [v] }

/-- Outcome of iterating the async generator `access_to_slack` to
exhaustion: it completes after yielding events, raises an exception to its
consumer after yielding events, or diverges (unbounded pagination). -/
inductive GenOutcome where
  | completed (events : List Event) (tr : Trace)
  | raised (events : List Event) (msg : String) (tr : Trace)
  | diverged

/-- `access_to_slack` (source lines 97-293).  Token acquisition (line 116)
happens before the `try` block, so a credential failure propagates out of
the generator to its consumer.  Inside the `try`, the tools are listed with
pagination, an empty tool list raises `RuntimeError`, the Strands Agent is
constructed, and the runtime stream's events are yielded; any exception in
the block is classified by `classifyError` and yielded as one error event. -/
def access_to_slack (ext : Externals) (payload : Payload) : GenOutcome :=
  match ext.tokenResult with
  | Except.error msg => GenOutcome.raised [] msg raisedTrace
  | Except.ok _ =>
      match get_full_tools_list ext.client ext.clientFuel Option.none with
      | Option.none => GenOutcome.diverged
      | Option.some (tools, reqs) =>
          if tools.isEmpty then
            GenOutcome.completed
              [classifyError "Gatewayから利用可能なツールがありません"]
              (discoveryTrace reqs.length)
          else
            let user_message := payloadGetD payload "prompt" (PyVal.str "")
            match ext.runtimeExc with
            | Option.none =>
                GenOutcome.completed ext.runtimeEvents
                  (streamTrace reqs.length user_message)
            | Option.some m =>
                GenOutcome.completed (ext.runtimeEvents ++ [classifyError m])
                  (streamTrace reqs.length user_message)

/-- Event forwarding of the entrypoint's `async for` loop (source lines
331-340): error events, data events and all other events are each yielded
unchanged. -/
def forwardEvent (event : Event) : Event :=
  match event with
  | Event.error _ => event
  | Event.data _ => event
  | _ => event

/-- The entrypoint `slack_agent` (source lines 299-344): construct
`AgentWithIdentity` (one error event on `ValueError`), validate that the
payload is non-empty and has a "prompt" key (one error event otherwise),
then forward every event of `access_to_slack`; an exception escaping the
generator is caught and wrapped in one generic error event.  The result is
the yielded events and the trace, or `Option.none` when the generator
diverges. -/
def slack_agent (env : Env) (ext : Externals) (payload : Payload) :
    Option (List Event × Trace) :=
  match AgentWithIdentity.init env with
  | Except.error e =>
      Option.some
        ([Event.error ("設定エラー: " ++ e ++
          ". GATEWAY_URLとCOGNITO_SCOPE環境変数が設定されていることを確認してください。")],
         emptyTrace)
  | Except.ok _ =>
      if payloadIsEmpty payload || !(payloadHasKey payload "prompt") then
        Option.some
          ([Event.error "無効なペイロード: \x27prompt\x27フィールドが必要です"], emptyTrace)
      else
        match access_to_slack ext payload with
        | GenOutcome.completed events tr =>
            Option.some (events.map forwardEvent, tr)
        | GenOutcome.raised events msg tr =>
            Option.some
              (events.map forwardEvent ++
                [Event.error ("リクエストの処理中にエラーが発生しました: " ++ msg)], tr)
        | GenOutcome.diverged => Option.none

/-- Token and tool-listing call counts accumulated over two sequential
invocations of the entrypoint with the same environment and stubs (the
module keeps no state between invocations, so each run recomputes both). -/
def sequentialTraces (env : Env) (ext : Externals) (payload : Payload) :
    Option (Nat × Nat) :=
  match slack_agent env ext payload with
  | Option.none => Option.none
  | Option.some (_, tr1) =>
      match slack_agent env ext payload with
      | Option.none => Option.none
      | Option.some (_, tr2) =>
          Option.some (tr1.tokenCalls + tr2.tokenCalls,
            tr1.toolListCalls + tr2.toolListCalls)

/-- Whether the first error event of the list, if any, is its last element
(no event of any kind follows an error event). -/
def errorsAreTerminal : List Event → Bool
  | [] => true
  | Event.error _ :: rest => List.isEmpty rest
  | _ :: rest => errorsAreTerminal rest

/-- Stub gateway page holding tools A and B with continuation cursor c1. -/
def pageAB : ToolPage := { items := ["A", "B"], pagination_token := Option.some "c1" }

/-- Stub gateway page holding tool C and no continuation cursor. -/
def pageC : ToolPage := { items := ["C"], pagination_token := Option.none }

/-- Stub gateway serving `pageAB` on the initial (absent) cursor and `pageC`
on cursor c1. -/
def stubClient : Option String → ToolPage
  | Option.none => pageAB
  | Option.some _ => pageC

/-- Environment with both required variables set. -/
def envOK : Env :=
  { GATEWAY_URL := Option.some "https://gw.example/mcp",
    COGNITO_SCOPE := Option.some "gateway/invoke",
    WORKLOAD_NAME := Option.none, USER_ID := Option.none }

/-- Environment lacking GATEWAY_URL. -/
def envNoUrl : Env :=
  { GATEWAY_URL := Option.none,
    COGNITO_SCOPE := Option.some "gateway/invoke",
    WORKLOAD_NAME := Option.none, USER_ID := Option.none }

/-- Payload carrying a prompt string. -/
def promptPayload : Payload := [("prompt", PyVal.str "hello")]

/-- Payload whose prompt key is present but maps to Python `None`. -/
def nonePromptPayload : Payload := [("prompt", PyVal.none)]

/-- Externals for a clean run: token granted, two-page gateway (`stubClient`),
a three-event runtime stream, no runtime exception. -/
def baseExternals : Externals :=
  { tokenResult := Except.ok "tok-123", client := stubClient, clientFuel := 2,
    runtimeEvents := [Event.data "E1", Event.other "E2", Event.data "E3"],
    runtimeExc := Option.none }

/-- Single gateway page with no tools and no continuation cursor. -/
def pageEmptyLast : ToolPage := { items := [], pagination_token := Option.none }

/-- Gateway serving only empty pages. -/
def emptyClient : Option String → ToolPage := fun _ => pageEmptyLast

/-- Externals whose gateway returns zero tools across all pages. -/
def extNoTools : Externals :=
  { baseExternals with client := emptyClient, clientFuel := 1 }

/-- Externals whose credential provider raises a read-timeout exception
mentioning None. -/
def extTokenFail : Externals :=
  { baseExternals with tokenResult := Except.error "Read timeout: URL is None" }

/-- Externals whose runtime stream raises a read-timeout exception after
yielding nothing. -/
def extRuntimeTimeout : Externals :=
  { baseExternals with
    runtimeEvents := []
    runtimeExc := Option.some "Read timeout on gateway" }

/-- Externals whose runtime stream yields an error-shaped event followed by a
data event. -/
def extErrMidStream : Externals :=
  { baseExternals with runtimeEvents := [Event.error "x", Event.data "y"] }

theorem get_full_tools_list_of_chain (client : Option String → ToolPage)
    (ps : List ToolPage) :
    ∀ (c : Option String) (fuel : Nat), chainFrom client c ps →
      ps.length ≤ fuel →
      get_full_tools_list client fuel c =
        Option.some ((ps.map ToolPage.items).flatten, chainCursors c ps) := by
  induction ps with
  | nil =>
      intro c fuel h _
      exact absurd h (by simp [chainFrom])
  | cons p rest ih =>
      intro c fuel h hlen
      cases rest with
      | nil =>
          obtain ⟨h1, h2⟩ := h
          cases fuel with
          | zero => simp at hlen
          | succ f =>
              simp [get_full_tools_list, h1, h2, chainCursors]
      | cons q rest2 =>
          obtain ⟨h1, t, h2, h3⟩ := h
          cases fuel with
          | zero => simp at hlen
          | succ f =>
              have hlen2 : (q :: rest2).length ≤ f := by
                simp only [List.length_cons] at hlen ⊢
                omega
              have hrec := ih (Option.some t) f h3 hlen2
              simp [get_full_tools_list, h1, h2, hrec, chainCursors]

theorem chainCursors_length (client : Option String → ToolPage)
    (ps : List ToolPage) :
    ∀ (c : Option String), chainFrom client c ps →
      (chainCursors c ps).length = ps.length := by
  induction ps with
  | nil => intro c h; exact absurd h (by simp [chainFrom])
  | cons p rest ih =>
      intro c h
      cases rest with
      | nil =>
          obtain ⟨_, h2⟩ := h
          simp [chainCursors, h2]
      | cons q rest2 =>
          obtain ⟨_, t, h2, h3⟩ := h
          have hrec := ih (Option.some t) h3
          simp only [chainCursors, h2, List.length_cons] at hrec ⊢
          omega

/-- C1: for every page chain served by the gateway, `get_full_tools_list`
accumulates all pages' descriptors in page order (each page's items appended
in the order returned), issues its requests with the cursors chained from no
cursor through each page's continuation cursor, and stops exactly at the
first page reporting no cursor, so the number of page requests equals the
number of pages. -/
theorem tool_discovery_pagination (client : Option String → ToolPage)
    (ps : List ToolPage) (fuel : Nat)
    (hchain : chainFrom client Option.none ps) (hfuel : ps.length ≤ fuel) :
    get_full_tools_list client fuel Option.none =
      Option.some ((ps.map ToolPage.items).flatten, chainCursors Option.none ps) ∧
    (chainCursors Option.none ps).length = ps.length := by
  exact ⟨get_full_tools_list_of_chain client ps Option.none fuel hchain hfuel,
    chainCursors_length client ps Option.none hchain⟩

theorem tool_discovery_pagination_witness :
    get_full_tools_list stubClient 2 Option.none =
      Option.some (["A", "B", "C"], [Option.none, Option.some "c1"]) ∧
    (chainCursors Option.none [pageAB, pageC]).length = 2 := by
  have h := tool_discovery_pagination stubClient [pageAB, pageC] 2
    ⟨rfl, "c1", rfl, rfl, rfl⟩ (by decide)
  constructor
  · rw [h.1]; rfl
  · rw [h.2]; rfl

theorem forwardEvent_eq (e : Event) : forwardEvent e = e := by
  cases e <;> rfl

theorem map_forwardEvent (es : List Event) : es.map forwardEvent = es := by
  induction es with
  | nil => rfl
  | cons e es ih => simp [forwardEvent_eq, ih]

theorem payloadIsEmpty_false_of_hasKey (p : Payload) (k : String)
    (h : payloadHasKey p k = true) : payloadIsEmpty p = false := by
  cases p with
  | nil => simp [payloadHasKey] at h
  | cons a l => rfl

theorem init_ok (env : Env) (hg : optFalsy env.GATEWAY_URL = false)
    (hc : optFalsy env.COGNITO_SCOPE = false) :
    AgentWithIdentity.init env = Except.ok
      { gateway_url := env.GATEWAY_URL.getD ""
        cognito_scope := env.COGNITO_SCOPE.getD ""
        workload_name := env.WORKLOAD_NAME.getD "slack-gateway-agent"
        user_id := env.USER_ID.getD "m2m-user-001" } := by
  simp [AgentWithIdentity.init, hg, hc]

theorem slack_agent_tokenFail (env : Env) (ext : Externals) (payload : Payload)
    (m : String)
    (hg : optFalsy env.GATEWAY_URL = false)
    (hc : optFalsy env.COGNITO_SCOPE = false)
    (hk : payloadHasKey payload "prompt" = true)
    (ht : ext.tokenResult = Except.error m) :
    slack_agent env ext payload =
      Option.some
        ([Event.error ("リクエストの処理中にエラーが発生しました: " ++ m)], raisedTrace) := by
  have hie := payloadIsEmpty_false_of_hasKey payload "prompt" hk
  simp [slack_agent, init_ok env hg hc, hie, hk, access_to_slack, ht]

theorem slack_agent_noTools (env : Env) (ext : Externals) (payload : Payload)
    (ps : List ToolPage) (tok : String)
    (hg : optFalsy env.GATEWAY_URL = false)
    (hc : optFalsy env.COGNITO_SCOPE = false)
    (hk : payloadHasKey payload "prompt" = true)
    (ht : ext.tokenResult = Except.ok tok)
    (hchain : chainFrom ext.client Option.none ps)
    (hfuel : ps.length ≤ ext.clientFuel)
    (hempty : (ps.map ToolPage.items).flatten = []) :
    slack_agent env ext payload =
      Option.some ([classifyError "Gatewayから利用可能なツールがありません"],
        discoveryTrace ps.length) := by
  have hie := payloadIsEmpty_false_of_hasKey payload "prompt" hk
  have hlist := get_full_tools_list_of_chain ext.client ps Option.none
    ext.clientFuel hchain hfuel
  have hcur := chainCursors_length ext.client ps Option.none hchain
  rw [hempty] at hlist
  simp [slack_agent, init_ok env hg hc, hie, hk, access_to_slack, ht, hlist,
    hcur, forwardEvent_eq]

theorem slack_agent_stream_ok (env : Env) (ext : Externals) (payload : Payload)
    (ps : List ToolPage) (tok : String)
    (hg : optFalsy env.GATEWAY_URL = false)
    (hc : optFalsy env.COGNITO_SCOPE = false)
    (hk : payloadHasKey payload "prompt" = true)
    (ht : ext.tokenResult = Except.ok tok)
    (hchain : chainFrom ext.client Option.none ps)
    (hfuel : ps.length ≤ ext.clientFuel)
    (hne : ((ps.map ToolPage.items).flatten).isEmpty = false)
    (hexc : ext.runtimeExc = Option.none) :
    slack_agent env ext payload =
      Option.some (ext.runtimeEvents,
        streamTrace ps.length (payloadGetD payload "prompt" (PyVal.str ""))) := by
  have hie := payloadIsEmpty_false_of_hasKey payload "prompt" hk
  have hlist := get_full_tools_list_of_chain ext.client ps Option.none
    ext.clientFuel hchain hfuel
  have hcur := chainCursors_length ext.client ps Option.none hchain
  simp [slack_agent, init_ok env hg hc, hie, hk, access_to_slack, ht, hlist,
    hne, hexc, hcur, map_forwardEvent, forwardEvent_eq]

theorem slack_agent_stream_exc (env : Env) (ext : Externals) (payload : Payload)
    (ps : List ToolPage) (tok : String) (m : String)
    (hg : optFalsy env.GATEWAY_URL = false)
    (hc : optFalsy env.COGNITO_SCOPE = false)
    (hk : payloadHasKey payload "prompt" = true)
    (ht : ext.tokenResult = Except.ok tok)
    (hchain : chainFrom ext.client Option.none ps)
    (hfuel : ps.length ≤ ext.clientFuel)
    (hne : ((ps.map ToolPage.items).flatten).isEmpty = false)
    (hexc : ext.runtimeExc = Option.some m) :
    slack_agent env ext payload =
      Option.some (ext.runtimeEvents ++ [classifyError m],
        streamTrace ps.length (payloadGetD payload "prompt" (PyVal.str ""))) := by
  have hie := payloadIsEmpty_false_of_hasKey payload "prompt" hk
  have hlist := get_full_tools_list_of_chain ext.client ps Option.none
    ext.clientFuel hchain hfuel
  have hcur := chainCursors_length ext.client ps Option.none hchain
  simp [slack_agent, init_ok env hg hc, hie, hk, access_to_slack, ht, hlist,
    hne, hexc, hcur, map_forwardEvent, forwardEvent_eq]

theorem classifyError_isError (s : String) : (classifyError s).isError = true := by
  simp only [classifyError]
  split
  · split <;> rfl
  · rfl

theorem errorsAreTerminal_single (e : Event) : errorsAreTerminal [e] = true := by
  cases e <;> rfl

theorem errorsAreTerminal_of_clean (es : List Event)
    (h : ∀ e ∈ es, e.isError = false) : errorsAreTerminal es = true := by
  induction es with
  | nil => rfl
  | cons e rest ih =>
      have he := h e (by simp)
      cases e with
      | error m => simp [Event.isError] at he
      | data p =>
          show errorsAreTerminal rest = true
          exact ih (fun x hx => h x (List.mem_cons_of_mem _ hx))
      | other p =>
          show errorsAreTerminal rest = true
          exact ih (fun x hx => h x (List.mem_cons_of_mem _ hx))

theorem errorsAreTerminal_append_one (es : List Event) (x : Event)
    (h : ∀ e ∈ es, e.isError = false) :
    errorsAreTerminal (es ++ [x]) = true := by
  induction es with
  | nil => simpa using errorsAreTerminal_single x
  | cons e rest ih =>
      have he := h e (by simp)
      cases e with
      | error m => simp [Event.isError] at he
      | data p =>
          show errorsAreTerminal (rest ++ [x]) = true
          exact ih (fun y hy => h y (List.mem_cons_of_mem _ hy))
      | other p =>
          show errorsAreTerminal (rest ++ [x]) = true
          exact ih (fun y hy => h y (List.mem_cons_of_mem _ hy))

theorem access_raised_events (ext : Externals) (payload : Payload)
    (events : List Event) (msg : String) (tr : Trace)
    (h : access_to_slack ext payload = GenOutcome.raised events msg tr) :
    events = [] := by
  unfold access_to_slack at h
  cases htok : ext.tokenResult with
  | error m =>
      rw [htok] at h
      injection h with h1 h2 h3
      exact h1.symm
  | ok tokv =>
      rw [htok] at h
      cases hgf : get_full_tools_list ext.client ext.clientFuel Option.none with
      | none => rw [hgf] at h; exact GenOutcome.noConfusion h
      | some pr =>
          obtain ⟨tools, reqs⟩ := pr
          rw [hgf] at h
          by_cases hemp : tools.isEmpty
          · simp [hemp] at h
          · cases hexc : ext.runtimeExc with
            | none => simp [hemp, hexc] at h
            | some m2 => simp [hemp, hexc] at h

theorem access_completed_shape (ext : Externals) (payload : Payload)
    (events : List Event) (tr : Trace)
    (h : access_to_slack ext payload = GenOutcome.completed events tr) :
    events = [classifyError "Gatewayから利用可能なツールがありません"] ∨
    (ext.runtimeExc = Option.none ∧ events = ext.runtimeEvents) ∨
    (∃ m, ext.runtimeExc = Option.some m ∧
      events = ext.runtimeEvents ++ [classifyError m]) := by
  unfold access_to_slack at h
  cases htok : ext.tokenResult with
  | error m => rw [htok] at h; exact GenOutcome.noConfusion h
  | ok tokv =>
      rw [htok] at h
      cases hgf : get_full_tools_list ext.client ext.clientFuel Option.none with
      | none => rw [hgf] at h; exact GenOutcome.noConfusion h
      | some pr =>
          obtain ⟨tools, reqs⟩ := pr
          rw [hgf] at h
          by_cases hemp : tools.isEmpty
          · simp [hemp] at h
            exact Or.inl h.1.symm
          · cases hexc : ext.runtimeExc with
            | none =>
                simp [hemp, hexc] at h
                exact Or.inr (Or.inl ⟨rfl, h.1.symm⟩)
            | some m2 =>
                simp [hemp, hexc] at h
                exact Or.inr (Or.inr ⟨m2, rfl, h.1.symm⟩)

/-- C2 (amended): every exception caught during the invocation by the
agent-execution block of `access_to_slack` — here an exception raised while
consuming the runtime stream — is classified from the lowercased exception
text: "read timeout" with "none" gives the Gateway URL configuration error
event, "read timeout" without "none" the gateway timeout event, anything
else the generic execution-failure event containing the original message.
(An exception from token acquisition escapes the generator instead and is
wrapped generically by the entrypoint; see the counterexample.) -/
theorem exception_classification (env : Env) (ext : Externals)
    (payload : Payload) (ps : List ToolPage) (tok s : String)
    (hg : optFalsy env.GATEWAY_URL = false)
    (hc : optFalsy env.COGNITO_SCOPE = false)
    (hk : payloadHasKey payload "prompt" = true)
    (ht : ext.tokenResult = Except.ok tok)
    (hchain : chainFrom ext.client Option.none ps)
    (hfuel : ps.length ≤ ext.clientFuel)
    (hne : ((ps.map ToolPage.items).flatten).isEmpty = false)
    (hexc : ext.runtimeExc = Option.some s) :
    slack_agent env ext payload =
      Option.some (ext.runtimeEvents ++ [classifyError s],
        streamTrace ps.length (payloadGetD payload "prompt" (PyVal.str ""))) ∧
    classifyError s =
      (if containsSub "read timeout" (lowerStr s) then
        (if containsSub "none" (lowerStr s) then
           Event.error ("Gateway URL設定エラー: " ++ s)
         else Event.error ("Gateway応答タイムアウト: " ++ s))
       else Event.error ("エージェントの実行に失敗しました: " ++ s)) := by
  refine ⟨slack_agent_stream_exc env ext payload ps tok s hg hc hk ht hchain
    hfuel hne hexc, ?_⟩
  rfl

theorem exception_classification_witness :
    slack_agent envOK extRuntimeTimeout promptPayload =
      Option.some ([Event.error "Gateway応答タイムアウト: Read timeout on gateway"],
        streamTrace 2 (PyVal.str "hello")) ∧
    classifyError "Read timeout on gateway" =
      Event.error "Gateway応答タイムアウト: Read timeout on gateway" := by
  have h := exception_classification envOK extRuntimeTimeout promptPayload
    [pageAB, pageC] "tok-123" "Read timeout on gateway" (by decide) (by decide)
    (by decide) rfl ⟨rfl, "c1", rfl, rfl, rfl⟩ (by decide) (by decide) rfl
  constructor
  · rw [h.1]; decide
  · rw [h.2]; decide

theorem exception_classification_cex :
    slack_agent envOK extTokenFail promptPayload =
      Option.some
        ([Event.error "リクエストの処理中にエラーが発生しました: Read timeout: URL is None"],
         raisedTrace) ∧
    containsSub "read timeout" (lowerStr "Read timeout: URL is None") = true ∧
    containsSub "none" (lowerStr "Read timeout: URL is None") = true ∧
    Event.error "リクエストの処理中にエラーが発生しました: Read timeout: URL is None" ≠
      Event.error "Gateway URL設定エラー: Read timeout: URL is None" := by
  refine ⟨?_, by decide, by decide, by decide⟩
  have h := slack_agent_tokenFail envOK extTokenFail promptPayload
    "Read timeout: URL is None" (by decide) (by decide) (by decide) rfl
  rw [h]; decide

/-- C3: for every payload that is empty or lacks the "prompt" key, under
valid configuration, the entrypoint yields exactly one error event signaling
the missing prompt, with the empty trace: no token acquisition and no page
request was made. -/
theorem missing_prompt_single_error_no_calls (env : Env) (ext : Externals)
    (payload : Payload)
    (hg : optFalsy env.GATEWAY_URL = false)
    (hc : optFalsy env.COGNITO_SCOPE = false)
    (hp : payloadIsEmpty payload = true ∨ payloadHasKey payload "prompt" = false) :
    slack_agent env ext payload =
      Option.some
        ([Event.error "無効なペイロード: \x27prompt\x27フィールドが必要です"], emptyTrace) ∧
    emptyTrace.tokenCalls = 0 ∧ emptyTrace.pageRequests = 0 := by
  refine ⟨?_, rfl, rfl⟩
  rcases hp with hp | hp <;> simp [slack_agent, init_ok env hg hc, hp]

theorem missing_prompt_witness :
    slack_agent envOK baseExternals ([] : Payload) =
      Option.some
        ([Event.error "無効なペイロード: \x27prompt\x27フィールドが必要です"], emptyTrace) ∧
    emptyTrace.tokenCalls = 0 ∧ emptyTrace.pageRequests = 0 :=
  missing_prompt_single_error_no_calls envOK baseExternals []
    (by decide) (by decide) (Or.inl (by decide))

/-- C4: for every environment lacking GATEWAY_URL or COGNITO_SCOPE, handler
construction fails and the entrypoint yields exactly one error event (and so
zero data events) with the empty trace, without crashing (the entrypoint
still returns a stream). -/
theorem missing_env_single_error (env : Env) (ext : Externals)
    (payload : Payload)
    (h : env.GATEWAY_URL = Option.none ∨ env.COGNITO_SCOPE = Option.none) :
    slack_agent env ext payload =
      Option.some ([Event.error ("設定エラー: " ++
        (if optFalsy env.GATEWAY_URL then "GATEWAY_URL環境変数が必要です"
         else "COGNITO_SCOPE環境変数が必要です") ++
        ". GATEWAY_URLとCOGNITO_SCOPE環境変数が設定されていることを確認してください。")],
       emptyTrace) ∧
    emptyTrace.tokenCalls = 0 := by
  refine ⟨?_, rfl⟩
  rcases h with h | h
  · have hgw : optFalsy env.GATEWAY_URL = true := by rw [h]; rfl
    simp [slack_agent, AgentWithIdentity.init, hgw]
  · have hcs : optFalsy env.COGNITO_SCOPE = true := by rw [h]; rfl
    cases hb : optFalsy env.GATEWAY_URL
    · simp [slack_agent, AgentWithIdentity.init, hb, hcs]
    · simp [slack_agent, AgentWithIdentity.init, hb]

theorem missing_env_witness :
    slack_agent envNoUrl baseExternals promptPayload =
      Option.some ([Event.error ("設定エラー: GATEWAY_URL環境変数が必要です" ++
        ". GATEWAY_URLとCOGNITO_SCOPE環境変数が設定されていることを確認してください。")],
       emptyTrace) ∧
    emptyTrace.tokenCalls = 0 := by
  have h := missing_env_single_error envNoUrl baseExternals promptPayload
    (Or.inl rfl)
  refine ⟨?_, rfl⟩
  rw [h.1]; decide

/-- C5: for every gateway whose page chain carries zero tools in total, the
invocation yields exactly one error event whose text signals that no tools
are available, and the agent runtime is never constructed. -/
theorem no_tools_single_error (env : Env) (ext : Externals) (payload : Payload)
    (ps : List ToolPage) (tok : String)
    (hg : optFalsy env.GATEWAY_URL = false)
    (hc : optFalsy env.COGNITO_SCOPE = false)
    (hk : payloadHasKey payload "prompt" = true)
    (ht : ext.tokenResult = Except.ok tok)
    (hchain : chainFrom ext.client Option.none ps)
    (hfuel : ps.length ≤ ext.clientFuel)
    (hempty : (ps.map ToolPage.items).flatten = []) :
    slack_agent env ext payload =
      Option.some
        ([Event.error "エージェントの実行に失敗しました: Gatewayから利用可能なツールがありません"],
         discoveryTrace ps.length) ∧
    (discoveryTrace ps.length).runtimeConstructed = false ∧
    containsSub "利用可能なツールがありません"
      "エージェントの実行に失敗しました: Gatewayから利用可能なツールがありません" = true := by
  have h := slack_agent_noTools env ext payload ps tok hg hc hk ht hchain
    hfuel hempty
  have hclass : classifyError "Gatewayから利用可能なツールがありません" =
      Event.error "エージェントの実行に失敗しました: Gatewayから利用可能なツールがありません" := by
    decide
  rw [hclass] at h
  exact ⟨h, rfl, by decide⟩

theorem no_tools_witness :
    slack_agent envOK extNoTools promptPayload =
      Option.some
        ([Event.error "エージェントの実行に失敗しました: Gatewayから利用可能なツールがありません"],
         discoveryTrace 1) ∧
    (discoveryTrace 1).runtimeConstructed = false ∧
    containsSub "利用可能なツールがありません"
      "エージェントの実行に失敗しました: Gatewayから利用可能なツールがありません" = true := by
  have h := no_tools_single_error envOK extNoTools promptPayload
    [pageEmptyLast] "tok-123" (by decide) (by decide) (by decide) rfl
    ⟨rfl, rfl⟩ (by decide) rfl
  simpa using h

/-- C6: for every finite event sequence produced by the runtime stream on a
clean run, the entrypoint yields exactly that sequence, unmodified and in
the same order. -/
theorem event_pass_through (env : Env) (ext : Externals) (payload : Payload)
    (ps : List ToolPage) (tok : String)
    (hg : optFalsy env.GATEWAY_URL = false)
    (hc : optFalsy env.COGNITO_SCOPE = false)
    (hk : payloadHasKey payload "prompt" = true)
    (ht : ext.tokenResult = Except.ok tok)
    (hchain : chainFrom ext.client Option.none ps)
    (hfuel : ps.length ≤ ext.clientFuel)
    (hne : ((ps.map ToolPage.items).flatten).isEmpty = false)
    (hexc : ext.runtimeExc = Option.none) :
    slack_agent env ext payload =
      Option.some (ext.runtimeEvents,
        streamTrace ps.length (payloadGetD payload "prompt" (PyVal.str ""))) :=
  slack_agent_stream_ok env ext payload ps tok hg hc hk ht hchain hfuel hne hexc

theorem event_pass_through_witness :
    slack_agent envOK baseExternals promptPayload =
      Option.some ([Event.data "E1", Event.other "E2", Event.data "E3"],
        streamTrace 2 (PyVal.str "hello")) := by
  have h := event_pass_through envOK baseExternals promptPayload
    [pageAB, pageC] "tok-123" (by decide) (by decide) (by decide) rfl
    ⟨rfl, "c1", rfl, rfl, rfl⟩ (by decide) (by decide) rfl
  rw [h]; decide

/-- C7 (amended): provided the runtime stream itself yields no error-shaped
events, any error event in the entrypoint's output is terminal (no event of
any kind follows it), and a failing invocation — in particular one whose
runtime stream raises — yields exactly one error event.  An error-shaped
event forwarded verbatim from the runtime stream is not terminal (see the
counterexample). -/
theorem error_event_terminal (env : Env) (ext : Externals) (payload : Payload)
    (events : List Event) (tr : Trace)
    (hclean : ∀ e ∈ ext.runtimeEvents, e.isError = false)
    (h : slack_agent env ext payload = Option.some (events, tr)) :
    errorsAreTerminal events = true ∧
    (ext.runtimeExc ≠ Option.none → List.countP Event.isError events = 1) := by
  unfold slack_agent at h
  cases hinit : AgentWithIdentity.init env with
  | error e =>
      rw [hinit] at h
      simp only [Option.some.injEq, Prod.mk.injEq] at h
      rw [← h.1]
      exact ⟨rfl, fun _ => by simp [List.countP_cons, Event.isError]⟩
  | ok cfg =>
      rw [hinit] at h
      by_cases hval : (payloadIsEmpty payload || !payloadHasKey payload "prompt") = true
      · rw [if_pos hval] at h
        simp only [Option.some.injEq, Prod.mk.injEq] at h
        rw [← h.1]
        exact ⟨rfl, fun _ => by simp [List.countP_cons, Event.isError]⟩
      · rw [if_neg hval] at h
        cases hacc : access_to_slack ext payload with
        | completed evs tr2 =>
            rw [hacc] at h
            simp only [Option.some.injEq, Prod.mk.injEq] at h
            rw [← h.1, map_forwardEvent]
            rcases access_completed_shape ext payload evs tr2 hacc with
              hs | ⟨hex, hs⟩ | ⟨m, hex, hs⟩
            · rw [hs]
              refine ⟨errorsAreTerminal_single _, fun _ => ?_⟩
              simp [List.countP_cons, classifyError_isError]
            · rw [hs]
              exact ⟨errorsAreTerminal_of_clean _ hclean,
                fun hx => absurd hex hx⟩
            · rw [hs]
              refine ⟨errorsAreTerminal_append_one _ _ hclean, fun _ => ?_⟩
              rw [List.countP_append]
              have h0 : List.countP Event.isError ext.runtimeEvents = 0 :=
                List.countP_eq_zero.mpr (fun a ha => by simp [hclean a ha])
              simp [h0, List.countP_cons, classifyError_isError]
        | raised evs msg tr2 =>
            rw [hacc] at h
            have hevs := access_raised_events ext payload evs msg tr2 hacc
            rw [hevs] at h
            simp only [Option.some.injEq, Prod.mk.injEq, List.map_nil,
              List.nil_append] at h
            rw [← h.1]
            exact ⟨rfl, fun _ => by simp [List.countP_cons, Event.isError]⟩
        | diverged =>
            rw [hacc] at h
            exact absurd h (by simp)

theorem error_event_terminal_witness :
    errorsAreTerminal
      [Event.error "Gateway応答タイムアウト: Read timeout on gateway"] = true ∧
    List.countP Event.isError
      [Event.error "Gateway応答タイムアウト: Read timeout on gateway"] = 1 := by
  have heq : slack_agent envOK extRuntimeTimeout promptPayload =
      Option.some ([Event.error "Gateway応答タイムアウト: Read timeout on gateway"],
        streamTrace 2 (PyVal.str "hello")) := by
    have h := slack_agent_stream_exc envOK extRuntimeTimeout promptPayload
      [pageAB, pageC] "tok-123" "Read timeout on gateway" (by decide) (by decide)
      (by decide) rfl ⟨rfl, "c1", rfl, rfl, rfl⟩ (by decide) (by decide) rfl
    rw [h]; decide
  have h := error_event_terminal envOK extRuntimeTimeout promptPayload
    [Event.error "Gateway応答タイムアウト: Read timeout on gateway"]
    (streamTrace 2 (PyVal.str "hello")) (by decide) heq
  exact ⟨h.1, h.2 (by decide)⟩

theorem error_event_terminal_cex :
    slack_agent envOK extErrMidStream promptPayload =
      Option.some ([Event.error "x", Event.data "y"],
        streamTrace 2 (PyVal.str "hello")) ∧
    errorsAreTerminal [Event.error "x", Event.data "y"] = false := by
  refine ⟨?_, by decide⟩
  have h := slack_agent_stream_ok envOK extErrMidStream promptPayload
    [pageAB, pageC] "tok-123" (by decide) (by decide) (by decide) rfl
    ⟨rfl, "c1", rfl, rfl, rfl⟩ (by decide) (by decide) rfl
  rw [h]; decide

/-- C8 (amended): every exception raised while consuming the streamed
runtime invocation terminates the invocation with the error event produced
by the shared text classification of `access_to_slack`; it is the generic
execution-failure event exactly when the lowercased text does not contain
"read timeout" (otherwise it is one of the timeout-shaped events; see the
counterexample). -/
theorem runtime_error_generic (env : Env) (ext : Externals) (payload : Payload)
    (ps : List ToolPage) (tok s : String)
    (hg : optFalsy env.GATEWAY_URL = false)
    (hc : optFalsy env.COGNITO_SCOPE = false)
    (hk : payloadHasKey payload "prompt" = true)
    (ht : ext.tokenResult = Except.ok tok)
    (hchain : chainFrom ext.client Option.none ps)
    (hfuel : ps.length ≤ ext.clientFuel)
    (hne : ((ps.map ToolPage.items).flatten).isEmpty = false)
    (hexc : ext.runtimeExc = Option.some s)
    (hrt : containsSub "read timeout" (lowerStr s) = false) :
    slack_agent env ext payload =
      Option.some
        (ext.runtimeEvents ++ [Event.error ("エージェントの実行に失敗しました: " ++ s)],
         streamTrace ps.length (payloadGetD payload "prompt" (PyVal.str ""))) := by
  have h := slack_agent_stream_exc env ext payload ps tok s hg hc hk ht hchain
    hfuel hne hexc
  have hclass : classifyError s =
      Event.error ("エージェントの実行に失敗しました: " ++ s) := by
    simp [classifyError, hrt]
  rw [hclass] at h
  exact h

theorem runtime_error_generic_witness :
    slack_agent envOK
      { baseExternals with
        runtimeEvents := [Event.data "E1"]
        runtimeExc := Option.some "boom" } promptPayload =
      Option.some
        ([Event.data "E1", Event.error "エージェントの実行に失敗しました: boom"],
         streamTrace 2 (PyVal.str "hello")) := by
  have h := runtime_error_generic envOK
    { baseExternals with
      runtimeEvents := [Event.data "E1"]
      runtimeExc := Option.some "boom" } promptPayload
    [pageAB, pageC] "tok-123" "boom" (by decide) (by decide) (by decide) rfl
    ⟨rfl, "c1", rfl, rfl, rfl⟩ (by decide) (by decide) rfl (by decide)
  rw [h]; decide

theorem runtime_error_generic_cex :
    slack_agent envOK extRuntimeTimeout promptPayload =
      Option.some ([Event.error "Gateway応答タイムアウト: Read timeout on gateway"],
        streamTrace 2 (PyVal.str "hello")) ∧
    Event.error "Gateway応答タイムアウト: Read timeout on gateway" ≠
      Event.error "エージェントの実行に失敗しました: Read timeout on gateway" := by
  refine ⟨?_, by decide⟩
  have h := slack_agent_stream_exc envOK extRuntimeTimeout promptPayload
    [pageAB, pageC] "tok-123" "Read timeout on gateway" (by decide) (by decide)
    (by decide) rfl ⟨rfl, "c1", rfl, rfl, rfl⟩ (by decide) (by decide) rfl
  rw [h]; decide

/-- C9: on a successful invocation exactly one access token is acquired and
exactly one tool list is retrieved (the trace records one credential call
and one tool-listing), and nothing is cached across invocations: two
sequential invocations accumulate exactly two credential calls and two
tool-listings. -/
theorem fresh_acquisition_per_invocation (env : Env) (ext : Externals)
    (payload : Payload) (ps : List ToolPage) (tok : String)
    (hg : optFalsy env.GATEWAY_URL = false)
    (hc : optFalsy env.COGNITO_SCOPE = false)
    (hk : payloadHasKey payload "prompt" = true)
    (ht : ext.tokenResult = Except.ok tok)
    (hchain : chainFrom ext.client Option.none ps)
    (hfuel : ps.length ≤ ext.clientFuel)
    (hne : ((ps.map ToolPage.items).flatten).isEmpty = false)
    (hexc : ext.runtimeExc = Option.none) :
    slack_agent env ext payload =
      Option.some (ext.runtimeEvents,
        streamTrace ps.length (payloadGetD payload "prompt" (PyVal.str ""))) ∧
    (streamTrace ps.length
      (payloadGetD payload "prompt" (PyVal.str ""))).tokenCalls = 1 ∧
    (streamTrace ps.length
      (payloadGetD payload "prompt" (PyVal.str ""))).toolListCalls = 1 ∧
    sequentialTraces env ext payload = Option.some (2, 2) := by
  have h := slack_agent_stream_ok env ext payload ps tok hg hc hk ht hchain
    hfuel hne hexc
  refine ⟨h, rfl, rfl, ?_⟩
  simp [sequentialTraces, h, streamTrace]

theorem fresh_acquisition_witness :
    slack_agent envOK baseExternals promptPayload =
      Option.some ([Event.data "E1", Event.other "E2", Event.data "E3"],
        streamTrace 2 (PyVal.str "hello")) ∧
    (streamTrace 2 (PyVal.str "hello")).tokenCalls = 1 ∧
    (streamTrace 2 (PyVal.str "hello")).toolListCalls = 1 ∧
    sequentialTraces envOK baseExternals promptPayload = Option.some (2, 2) := by
  have h := fresh_acquisition_per_invocation envOK baseExternals promptPayload
    [pageAB, pageC] "tok-123" (by decide) (by decide) (by decide) rfl
    ⟨rfl, "c1", rfl, rfl, rfl⟩ (by decide) (by decide) rfl
  refine ⟨?_, rfl, rfl, h.2.2.2⟩
  rw [h.1]; decide

/-- C10: payload validation checks only the presence of the "prompt" key;
when the key maps to the empty string or to Python None, validation passes,
the token is acquired and tools are discovered (trace fields), and the
stored value is forwarded unchanged as the user message to the runtime's
streaming invocation (the trace records it as the sole stream argument). -/
theorem prompt_value_not_validated (env : Env) (ext : Externals)
    (payload : Payload) (ps : List ToolPage) (tok : String) (v : PyVal)
    (hg : optFalsy env.GATEWAY_URL = false)
    (hc : optFalsy env.COGNITO_SCOPE = false)
    (hk : payloadHasKey payload "prompt" = true)
    (hv : payloadGetD payload "prompt" (PyVal.str "") = v)
    (hval : v = PyVal.none ∨ v = PyVal.str "")
    (ht : ext.tokenResult = Except.ok tok)
    (hchain : chainFrom ext.client Option.none ps)
    (hfuel : ps.length ≤ ext.clientFuel)
    (hne : ((ps.map ToolPage.items).flatten).isEmpty = false)
    (hexc : ext.runtimeExc = Option.none) :
    slack_agent env ext payload =
      Option.some (ext.runtimeEvents, streamTrace ps.length v) ∧
    (streamTrace ps.length v).streamMessages = [v] ∧
    (streamTrace ps.length v).tokenCalls = 1 ∧
    (streamTrace ps.length v).toolListCalls = 1 := by
  have h := slack_agent_stream_ok env ext payload ps tok hg hc hk ht hchain
    hfuel hne hexc
  rw [hv] at h
  exact ⟨h, rfl, rfl, rfl⟩

theorem prompt_value_not_validated_witness :
    slack_agent envOK baseExternals nonePromptPayload =
      Option.some ([Event.data "E1", Event.other "E2", Event.data "E3"],
        streamTrace 2 PyVal.none) ∧
    (streamTrace 2 PyVal.none).streamMessages = [PyVal.none] ∧
    (streamTrace 2 PyVal.none).tokenCalls = 1 ∧
    (streamTrace 2 PyVal.none).toolListCalls = 1 := by
  have h := prompt_value_not_validated envOK baseExternals nonePromptPayload
    [pageAB, pageC] "tok-123" PyVal.none (by decide) (by decide) (by decide)
    (by decide) (Or.inl rfl) rfl ⟨rfl, "c1", rfl, rfl, rfl⟩ (by decide)
    (by decide) rfl
  refine ⟨?_, rfl, rfl, rfl⟩
  rw [h.1]; decide

end SlackGatewayAgent
